import Mathlib

/-!
# Sequencing coordinator (`server/sequencer_manager.go`)

A shallow embedding of `SequencerManager.ExecutePass` and of
`NewSequencerManager`.  The collaborators that live in other packages
(`trees.GetTree`, `trees.Hasher`, `trees.Signer`, `Sequencer.SequenceBatch`)
are fields of a `World`; every theorem quantifies over all of them.  A run
yields its outcome together with the ordered list of collaborator calls it
made, so that "is never invoked" and "exactly once" are statements about that
list.
-/

namespace Trillian

/-! ## Errors and `fmt.Errorf` -/

/-- The kind a Go error value carries (its dynamic type or status code).
`errorString` is the kind of the values built by `errors.New` and by
`fmt.Errorf` when the format has no wrapping verb. -/
inductive ErrKind where
  | errorString
  | notFound
  | wrongType
  | unsupportedAlgorithm
  | keyUnavailable
  | sequencingConflict
  | signing
  | io
  | invalidArgument
  | other (tag : Nat)
  deriving DecidableEq, Repr

/-- A non-nil Go `error`: its kind and the text its `Error()` method returns. -/
structure GoError where
  kind : ErrKind
  msg : String
  deriving DecidableEq, Repr

/-- Expansion of the `%v` verbs of a format, left to right, over the already
rendered operands; a verb with no operand left prints Go's missing marker. -/
def expandVerbs : List Char → List String → List Char
  | '%' :: 'v' :: rest, a :: as => a.data ++ expandVerbs rest as
  | '%' :: 'v' :: rest, [] => "%!v(MISSING)".data ++ expandVerbs rest []
  | c :: rest, as => c :: expandVerbs rest as
  | [], _ => []

/-- `fmt.Sprintf` restricted to `%v` verbs. -/
def Sprintf (format : String) (args : List String) : String :=
  ⟨expandVerbs format.data args⟩

/-- `fmt.Errorf(format, logID, err)` as used at the four failure sites: `%v`
renders an `int64` in decimal and an `error` through `Error()`; the result is
a fresh error of kind `errorString`. -/
def Errorf (format : String) (logID : Int) (err : GoError) : GoError :=
  { kind := ErrKind.errorString, msg := Sprintf format [toString logID, err.msg] }

/-! ## Handles of the collaborating packages -/

/-- `trillian.TreeType`. -/
inductive TreeType where
  | UNKNOWN
  | LOG
  | MAP
  deriving DecidableEq, Repr

/-- `trees.GetOpts`. -/
structure GetOpts where
  TreeType : TreeType
  deriving DecidableEq, Repr

/-- A `*trillian.Tree` value, identified by a tag. -/
structure Tree where
  id : Nat
  deriving DecidableEq, Repr

/-- A tree hasher value, identified by a tag. -/
structure Hasher where
  id : Nat
  deriving DecidableEq, Repr

/-- A signer value, identified by a tag. -/
structure Signer where
  id : Nat
  deriving DecidableEq, Repr

/-- A `storage.AdminStorage` value. -/
structure AdminStorage where
  id : Nat
  deriving DecidableEq, Repr

/-- A `storage.LogStorage` value. -/
structure LogStorage where
  id : Nat
  deriving DecidableEq, Repr

/-- A signer factory value. -/
structure SignerFactory where
  id : Nat
  deriving DecidableEq, Repr

/-- A `util.TimeSource` value. -/
structure TimeSource where
  id : Nat
  deriving DecidableEq, Repr

/-- A `context.Context`: a root, or a context derived from a parent by
`trees.NewContext`, which attaches the tree. -/
inductive Context where
  | root (id : Nat)
  | withTree (parent : Context) (tree : Tree)
  deriving DecidableEq, Repr

/-- `trees.NewContext(ctx, tree)`. -/
def NewContext (ctx : Context) (tree : Tree) : Context :=
  Context.withTree ctx tree

/-- `extension.Registry`, the three fields `ExecutePass` reads. -/
structure Registry where
  AdminStorage : AdminStorage
  SignerFactory : SignerFactory
  LogStorage : LogStorage
  deriving DecidableEq, Repr

/-- Modelled from the spec: the declaration of `LogOperationInfo` is in another
file of the package; the pass information carries a batch-size upper bound and
a time source. -/
structure LogOperationInfo where
  TimeSource : TimeSource
  BatchSize : Int
  deriving DecidableEq, Repr

/-- `SequencerManager`: `guardWindow` is a `time.Duration` (nanoseconds). -/
structure SequencerManager where
  guardWindow : Int
  registry : Registry
  deriving DecidableEq, Repr

/-- `NewSequencerManager(registry, gw)`. -/
def NewSequencerManager (registry : Registry) (gw : Int) : SequencerManager :=
  { guardWindow := gw, registry := registry }

/-- `SequencerManager.Name`. -/
def SequencerManager.Name (_s : SequencerManager) : String :=
  "Sequencer"

/-- Modelled from the spec: the declaration of `log.Sequencer` is in another
package; the engine is bound to a hasher, a time source, the log storage, a
signer and a guard-window duration. -/
structure Sequencer where
  hasher : Hasher
  timeSource : TimeSource
  logStorage : LogStorage
  signer : Signer
  guardWindow : Int
  deriving DecidableEq, Repr

/-- Modelled from the spec: `log.NewSequencer` is in another package; it binds
the engine to its four collaborators, with no guard window set yet. -/
def NewSequencer (hasher : Hasher) (timeSource : TimeSource) (logStorage : LogStorage)
    (signer : Signer) : Sequencer :=
  { hasher := hasher, timeSource := timeSource, logStorage := logStorage, signer := signer,
    guardWindow := 0 }

/-- Modelled from the spec: `Sequencer.SetGuardWindow` is in another package;
it stores the guard-window duration in the engine. -/
def Sequencer.SetGuardWindow (sequencer : Sequencer) (gw : Int) : Sequencer :=
  { sequencer with guardWindow := gw }

/-! ## Collaborator behaviour and runs -/

/-- The behaviour of the collaborators during one pass.  Each returns a Go
pair of a value and an error that may be nil (`none`). -/
structure World where
  getTree : Context → AdminStorage → Int → GetOpts → Tree × Option GoError
  hasher : Tree → Hasher × Option GoError
  signer : Context → SignerFactory → Tree → Signer × Option GoError
  sequenceBatch : Sequencer → Context → Int → Int → Int × Option GoError

/-- One collaborator call, with its arguments. -/
inductive Call where
  | getTree (ctx : Context) (admin : AdminStorage) (logID : Int) (opts : GetOpts)
  | hasher (tree : Tree)
  | signer (ctx : Context) (factory : SignerFactory) (tree : Tree)
  | newSequencer (hasher : Hasher) (timeSource : TimeSource) (logStorage : LogStorage)
      (signer : Signer)
  | setGuardWindow (gw : Int)
  | sequenceBatch (sequencer : Sequencer) (ctx : Context) (logID : Int) (maxBatchSize : Int)
  deriving DecidableEq, Repr

/-- How a call of `ExecutePass` ends: it returns its `(int, error)` pair, or
it panics on reading a field through a nil `*LogOperationInfo`. -/
inductive Outcome where
  | returned (leaves : Int) (err : Option GoError)
  | nilDereference
  deriving DecidableEq, Repr

/-- The outcome of a call and the collaborator calls it made, in order. -/
structure Run where
  outcome : Outcome
  calls : List Call
  deriving DecidableEq, Repr

/-- `SequencerManager.ExecutePass(ctx, logID, info)`; `info` is a pointer and
may be nil (`none`). -/
def ExecutePass (w : World) (s : SequencerManager) (ctx : Context) (logID : Int)
    (info : Option LogOperationInfo) : Run :=
  let opts : GetOpts := { TreeType := TreeType.LOG }
  let c1 := Call.getTree ctx s.registry.AdminStorage logID opts
  match w.getTree ctx s.registry.AdminStorage logID opts with
  | (_, some err) =>
    { outcome := Outcome.returned 0 (some (Errorf "error retrieving log %v: %v" logID err)),
      calls := [c1] }
  | (tree, none) =>
    let ctx1 := NewContext ctx tree
    let c2 := Call.hasher tree
    match w.hasher tree with
    | (_, some err) =>
      { outcome := Outcome.returned 0
          (some (Errorf "error getting hasher for log %v: %v" logID err)),
        calls := [c1, c2] }
    | (hasher, none) =>
      let c3 := Call.signer ctx1 s.registry.SignerFactory tree
      match w.signer ctx1 s.registry.SignerFactory tree with
      | (_, some err) =>
        { outcome := Outcome.returned 0
            (some (Errorf "error getting signer for log %v: %v" logID err)),
          calls := [c1, c2, c3] }
      | (signer, none) =>
        match info with
        | none => { outcome := Outcome.nilDereference, calls := [c1, c2, c3] }
        | some i =>
          let sequencer0 := NewSequencer hasher i.TimeSource s.registry.LogStorage signer
          let c4 := Call.newSequencer hasher i.TimeSource s.registry.LogStorage signer
          let sequencer := sequencer0.SetGuardWindow s.guardWindow
          let c5 := Call.setGuardWindow s.guardWindow
          let c6 := Call.sequenceBatch sequencer ctx1 logID i.BatchSize
          match w.sequenceBatch sequencer ctx1 logID i.BatchSize with
          | (_, some err) =>
            { outcome := Outcome.returned 0
                (some (Errorf "failed to sequence batch for %v: %v" logID err)),
              calls := [c1, c2, c3, c4, c5, c6] }
          | (leaves, none) =>
            { outcome := Outcome.returned leaves none, calls := [c1, c2, c3, c4, c5, c6] }

/-! ## Observations on runs -/

/-- Whether a call is the tree resolution. -/
def Call.isGetTree : Call → Bool
  | Call.getTree _ _ _ _ => true
  | _ => false

/-- Whether a call is the hasher resolution. -/
def Call.isHasher : Call → Bool
  | Call.hasher _ => true
  | _ => false

/-- Whether a call is the signer resolution. -/
def Call.isSigner : Call → Bool
  | Call.signer _ _ _ => true
  | _ => false

/-- Whether a call is the engine's `SequenceBatch`. -/
def Call.isSequenceBatch : Call → Bool
  | Call.sequenceBatch _ _ _ _ => true
  | _ => false

/-- How many calls of a run satisfy `p`. -/
def Run.invocations (r : Run) (p : Call → Bool) : Nat :=
  r.calls.countP p

/-- Whether tree, hasher and signer resolution all return a nil error for
this manager, context and log. -/
def resolutionsSucceed (w : World) (s : SequencerManager) (ctx : Context) (logID : Int) : Bool :=
  match w.getTree ctx s.registry.AdminStorage logID { TreeType := TreeType.LOG } with
  | (_, some _) => false
  | (tree, none) =>
    match w.hasher tree with
    | (_, some _) => false
    | (_, none) =>
      match w.signer (NewContext ctx tree) s.registry.SignerFactory tree with
      | (_, some _) => false
      | (_, none) => true

/-- Modelled from the spec: `Sequencer.SequenceBatch` is in another package.
Per the spec a `maxBatchSize ≤ 0` is a caller contract violation, answered
with an InvalidArgumentError and nothing sequenced; for a positive bound the
algorithm (steps 1 to 9 of the spec) is the parameter `steps`, and `reason` is
the text of the InvalidArgumentError. -/
def SequenceBatch (steps : Sequencer → Context → Int → Int → Int × Option GoError)
    (reason : String) (sequencer : Sequencer) (ctx : Context) (logID : Int)
    (maxBatchSize : Int) : Int × Option GoError :=
  if maxBatchSize ≤ 0 then (0, some { kind := ErrKind.invalidArgument, msg := reason })
  else steps sequencer ctx logID maxBatchSize

/-- The world `w` with its engine replaced by `engine`. -/
def World.withEngine (w : World)
    (engine : Sequencer → Context → Int → Int → Int × Option GoError) : World :=
  { w with sequenceBatch := engine }

/-! ## A concrete world for evaluation -/

/-- A world in which logs 1 to 5 resolve, log 2 has no hasher, log 3 has no
signer, and the engine finds no eligible work for log 1, reports a conflict
together with a count of five for log 4, and sequences three leaves
otherwise. -/
def sampleWorld : World where
  getTree := fun _ _ logID opts =>
    if opts.TreeType = TreeType.LOG ∧ 1 ≤ logID ∧ logID ≤ 5 then (⟨logID.toNat⟩, none)
    else (⟨0⟩, some ⟨ErrKind.notFound, "tree not found"⟩)
  hasher := fun tree =>
    if tree.id = 2 then (⟨0⟩, some ⟨ErrKind.unsupportedAlgorithm, "unknown hash strategy"⟩)
    else (⟨tree.id + 10⟩, none)
  signer := fun _ _ tree =>
    if tree.id = 3 then (⟨0⟩, some ⟨ErrKind.keyUnavailable, "key disabled"⟩)
    else (⟨tree.id + 20⟩, none)
  sequenceBatch := fun _ _ logID _ =>
    if logID = 4 then (5, some ⟨ErrKind.sequencingConflict, "commit conflict"⟩)
    else if logID = 1 then (0, none)
    else (3, none)

/-- A registry for evaluation. -/
def sampleRegistry : Registry :=
  { AdminStorage := ⟨1⟩, SignerFactory := ⟨2⟩, LogStorage := ⟨3⟩ }

/-- A manager for evaluation: guard window of ten nanoseconds. -/
def sampleManager : SequencerManager :=
  NewSequencerManager sampleRegistry 10

/-- Pass information for evaluation: batch size 50. -/
def sampleInfo : LogOperationInfo :=
  { TimeSource := ⟨7⟩, BatchSize := 50 }

/-- Pass information for evaluation with a batch size of zero. -/
def zeroBatchInfo : LogOperationInfo :=
  { TimeSource := ⟨7⟩, BatchSize := 0 }

/-! ## Formatting lemmas -/

theorem Errorf_kind (format : String) (logID : Int) (e : GoError) :
    (Errorf format logID e).kind = ErrKind.errorString := rfl

theorem Errorf_retrieving_msg (logID : Int) (e : GoError) :
    (Errorf "error retrieving log %v: %v" logID e).msg
      = "error retrieving log " ++ toString logID ++ ": " ++ e.msg := by
  apply String.ext
  simp [Errorf, Sprintf, expandVerbs, String.data_append]

theorem Errorf_hasher_msg (logID : Int) (e : GoError) :
    (Errorf "error getting hasher for log %v: %v" logID e).msg
      = "error getting hasher for log " ++ toString logID ++ ": " ++ e.msg := by
  apply String.ext
  simp [Errorf, Sprintf, expandVerbs, String.data_append]

theorem Errorf_signer_msg (logID : Int) (e : GoError) :
    (Errorf "error getting signer for log %v: %v" logID e).msg
      = "error getting signer for log " ++ toString logID ++ ": " ++ e.msg := by
  apply String.ext
  simp [Errorf, Sprintf, expandVerbs, String.data_append]

theorem Errorf_sequence_msg (logID : Int) (e : GoError) :
    (Errorf "failed to sequence batch for %v: %v" logID e).msg
      = "failed to sequence batch for " ++ toString logID ++ ": " ++ e.msg := by
  apply String.ext
  simp [Errorf, Sprintf, expandVerbs, String.data_append]

theorem Errorf_retrieving_eq (logID : Int) (e : GoError) :
    Errorf "error retrieving log %v: %v" logID e
      = { kind := ErrKind.errorString,
          msg := "error retrieving log " ++ toString logID ++ ": " ++ e.msg } := by
  have h := Errorf_retrieving_msg logID e
  simp only [Errorf] at h ⊢
  rw [h]

theorem Errorf_hasher_eq (logID : Int) (e : GoError) :
    Errorf "error getting hasher for log %v: %v" logID e
      = { kind := ErrKind.errorString,
          msg := "error getting hasher for log " ++ toString logID ++ ": " ++ e.msg } := by
  have h := Errorf_hasher_msg logID e
  simp only [Errorf] at h ⊢
  rw [h]

theorem Errorf_signer_eq (logID : Int) (e : GoError) :
    Errorf "error getting signer for log %v: %v" logID e
      = { kind := ErrKind.errorString,
          msg := "error getting signer for log " ++ toString logID ++ ": " ++ e.msg } := by
  have h := Errorf_signer_msg logID e
  simp only [Errorf] at h ⊢
  rw [h]

theorem Errorf_sequence_eq (logID : Int) (e : GoError) :
    Errorf "failed to sequence batch for %v: %v" logID e
      = { kind := ErrKind.errorString,
          msg := "failed to sequence batch for " ++ toString logID ++ ": " ++ e.msg } := by
  have h := Errorf_sequence_msg logID e
  simp only [Errorf] at h ⊢
  rw [h]

/-! ## The six paths through `ExecutePass` -/

theorem ExecutePass_of_getTree_err (w : World) (s : SequencerManager) (ctx : Context)
    (logID : Int) (info : Option LogOperationInfo) (t : Tree) (e : GoError)
    (hT : w.getTree ctx s.registry.AdminStorage logID { TreeType := TreeType.LOG } = (t, some e)) :
    ExecutePass w s ctx logID info =
      { outcome := Outcome.returned 0 (some (Errorf "error retrieving log %v: %v" logID e)),
        calls := [Call.getTree ctx s.registry.AdminStorage logID { TreeType := TreeType.LOG }] } := by
  simp only [ExecutePass, hT]

theorem ExecutePass_of_hasher_err (w : World) (s : SequencerManager) (ctx : Context)
    (logID : Int) (info : Option LogOperationInfo) (tree : Tree) (h : Hasher) (e : GoError)
    (hT : w.getTree ctx s.registry.AdminStorage logID { TreeType := TreeType.LOG } = (tree, none))
    (hH : w.hasher tree = (h, some e)) :
    ExecutePass w s ctx logID info =
      { outcome := Outcome.returned 0
          (some (Errorf "error getting hasher for log %v: %v" logID e)),
        calls := [Call.getTree ctx s.registry.AdminStorage logID { TreeType := TreeType.LOG },
          Call.hasher tree] } := by
  simp only [ExecutePass, hT, hH]

theorem ExecutePass_of_signer_err (w : World) (s : SequencerManager) (ctx : Context)
    (logID : Int) (info : Option LogOperationInfo) (tree : Tree) (h : Hasher) (sg : Signer)
    (e : GoError)
    (hT : w.getTree ctx s.registry.AdminStorage logID { TreeType := TreeType.LOG } = (tree, none))
    (hH : w.hasher tree = (h, none))
    (hS : w.signer (NewContext ctx tree) s.registry.SignerFactory tree = (sg, some e)) :
    ExecutePass w s ctx logID info =
      { outcome := Outcome.returned 0
          (some (Errorf "error getting signer for log %v: %v" logID e)),
        calls := [Call.getTree ctx s.registry.AdminStorage logID { TreeType := TreeType.LOG },
          Call.hasher tree, Call.signer (NewContext ctx tree) s.registry.SignerFactory tree] } := by
  simp only [ExecutePass, hT, hH, hS]

theorem ExecutePass_of_nil_info (w : World) (s : SequencerManager) (ctx : Context)
    (logID : Int) (tree : Tree) (h : Hasher) (sg : Signer)
    (hT : w.getTree ctx s.registry.AdminStorage logID { TreeType := TreeType.LOG } = (tree, none))
    (hH : w.hasher tree = (h, none))
    (hS : w.signer (NewContext ctx tree) s.registry.SignerFactory tree = (sg, none)) :
    ExecutePass w s ctx logID none =
      { outcome := Outcome.nilDereference,
        calls := [Call.getTree ctx s.registry.AdminStorage logID { TreeType := TreeType.LOG },
          Call.hasher tree, Call.signer (NewContext ctx tree) s.registry.SignerFactory tree] } := by
  simp only [ExecutePass, hT, hH, hS]

theorem ExecutePass_of_engine_err (w : World) (s : SequencerManager) (ctx : Context)
    (logID : Int) (i : LogOperationInfo) (tree : Tree) (h : Hasher) (sg : Signer) (n : Int)
    (e : GoError)
    (hT : w.getTree ctx s.registry.AdminStorage logID { TreeType := TreeType.LOG } = (tree, none))
    (hH : w.hasher tree = (h, none))
    (hS : w.signer (NewContext ctx tree) s.registry.SignerFactory tree = (sg, none))
    (hB : w.sequenceBatch
        ((NewSequencer h i.TimeSource s.registry.LogStorage sg).SetGuardWindow s.guardWindow)
        (NewContext ctx tree) logID i.BatchSize = (n, some e)) :
    ExecutePass w s ctx logID (some i) =
      { outcome := Outcome.returned 0
          (some (Errorf "failed to sequence batch for %v: %v" logID e)),
        calls := [Call.getTree ctx s.registry.AdminStorage logID { TreeType := TreeType.LOG },
          Call.hasher tree, Call.signer (NewContext ctx tree) s.registry.SignerFactory tree,
          Call.newSequencer h i.TimeSource s.registry.LogStorage sg,
          Call.setGuardWindow s.guardWindow,
          Call.sequenceBatch
            ((NewSequencer h i.TimeSource s.registry.LogStorage sg).SetGuardWindow s.guardWindow)
            (NewContext ctx tree) logID i.BatchSize] } := by
  simp only [ExecutePass, hT, hH, hS, hB]

theorem ExecutePass_of_engine_ok (w : World) (s : SequencerManager) (ctx : Context)
    (logID : Int) (i : LogOperationInfo) (tree : Tree) (h : Hasher) (sg : Signer) (n : Int)
    (hT : w.getTree ctx s.registry.AdminStorage logID { TreeType := TreeType.LOG } = (tree, none))
    (hH : w.hasher tree = (h, none))
    (hS : w.signer (NewContext ctx tree) s.registry.SignerFactory tree = (sg, none))
    (hB : w.sequenceBatch
        ((NewSequencer h i.TimeSource s.registry.LogStorage sg).SetGuardWindow s.guardWindow)
        (NewContext ctx tree) logID i.BatchSize = (n, none)) :
    ExecutePass w s ctx logID (some i) =
      { outcome := Outcome.returned n none,
        calls := [Call.getTree ctx s.registry.AdminStorage logID { TreeType := TreeType.LOG },
          Call.hasher tree, Call.signer (NewContext ctx tree) s.registry.SignerFactory tree,
          Call.newSequencer h i.TimeSource s.registry.LogStorage sg,
          Call.setGuardWindow s.guardWindow,
          Call.sequenceBatch
            ((NewSequencer h i.TimeSource s.registry.LogStorage sg).SetGuardWindow s.guardWindow)
            (NewContext ctx tree) logID i.BatchSize] } := by
  simp only [ExecutePass, hT, hH, hS, hB]

/-! ## Which resolution step decides a run -/

theorem resolution_cases (w : World) (s : SequencerManager) (ctx : Context) (logID : Int) :
    (∃ t e, w.getTree ctx s.registry.AdminStorage logID { TreeType := TreeType.LOG }
        = (t, some e)) ∨
    (∃ tree h e, w.getTree ctx s.registry.AdminStorage logID { TreeType := TreeType.LOG }
        = (tree, none) ∧ w.hasher tree = (h, some e)) ∨
    (∃ tree h sg e, w.getTree ctx s.registry.AdminStorage logID { TreeType := TreeType.LOG }
        = (tree, none) ∧ w.hasher tree = (h, none) ∧
        w.signer (NewContext ctx tree) s.registry.SignerFactory tree = (sg, some e)) ∨
    (∃ tree h sg, w.getTree ctx s.registry.AdminStorage logID { TreeType := TreeType.LOG }
        = (tree, none) ∧ w.hasher tree = (h, none) ∧
        w.signer (NewContext ctx tree) s.registry.SignerFactory tree = (sg, none)) := by
  rcases hT : w.getTree ctx s.registry.AdminStorage logID { TreeType := TreeType.LOG }
    with ⟨tree, _ | e⟩
  · rcases hH : w.hasher tree with ⟨h, _ | e⟩
    · rcases hS : w.signer (NewContext ctx tree) s.registry.SignerFactory tree with ⟨sg, _ | e⟩
      · exact Or.inr (Or.inr (Or.inr ⟨tree, h, sg, rfl, hH, hS⟩))
      · exact Or.inr (Or.inr (Or.inl ⟨tree, h, sg, e, rfl, hH, hS⟩))
    · exact Or.inr (Or.inl ⟨tree, h, e, rfl, hH⟩)
  · exact Or.inl ⟨tree, e, rfl⟩

theorem resolutionsSucceed_of_getTree_err (w : World) (s : SequencerManager) (ctx : Context)
    (logID : Int) (t : Tree) (e : GoError)
    (hT : w.getTree ctx s.registry.AdminStorage logID { TreeType := TreeType.LOG } = (t, some e)) :
    resolutionsSucceed w s ctx logID = false := by
  simp only [resolutionsSucceed, hT]

theorem resolutionsSucceed_of_hasher_err (w : World) (s : SequencerManager) (ctx : Context)
    (logID : Int) (tree : Tree) (h : Hasher) (e : GoError)
    (hT : w.getTree ctx s.registry.AdminStorage logID { TreeType := TreeType.LOG } = (tree, none))
    (hH : w.hasher tree = (h, some e)) :
    resolutionsSucceed w s ctx logID = false := by
  simp only [resolutionsSucceed, hT, hH]

theorem resolutionsSucceed_of_signer_err (w : World) (s : SequencerManager) (ctx : Context)
    (logID : Int) (tree : Tree) (h : Hasher) (sg : Signer) (e : GoError)
    (hT : w.getTree ctx s.registry.AdminStorage logID { TreeType := TreeType.LOG } = (tree, none))
    (hH : w.hasher tree = (h, none))
    (hS : w.signer (NewContext ctx tree) s.registry.SignerFactory tree = (sg, some e)) :
    resolutionsSucceed w s ctx logID = false := by
  simp only [resolutionsSucceed, hT, hH, hS]

theorem resolutionsSucceed_of_all_ok (w : World) (s : SequencerManager) (ctx : Context)
    (logID : Int) (tree : Tree) (h : Hasher) (sg : Signer)
    (hT : w.getTree ctx s.registry.AdminStorage logID { TreeType := TreeType.LOG } = (tree, none))
    (hH : w.hasher tree = (h, none))
    (hS : w.signer (NewContext ctx tree) s.registry.SignerFactory tree = (sg, none)) :
    resolutionsSucceed w s ctx logID = true := by
  simp only [resolutionsSucceed, hT, hH, hS]

/-! ## Claims -/

/-- C1: when tree, hasher and signer resolution succeed and the engine's
`SequenceBatch` returns `(n, nil)`, `ExecutePass` with a non-nil `info` returns
exactly `(n, nil)`, for every `n`, zero included. -/
theorem ExecutePass_returns_engine_count (w : World) (s : SequencerManager) (ctx : Context)
    (logID : Int) (i : LogOperationInfo) (tree : Tree) (h : Hasher) (sg : Signer) (n : Int)
    (hT : w.getTree ctx s.registry.AdminStorage logID { TreeType := TreeType.LOG } = (tree, none))
    (hH : w.hasher tree = (h, none))
    (hS : w.signer (NewContext ctx tree) s.registry.SignerFactory tree = (sg, none))
    (hB : w.sequenceBatch
        ((NewSequencer h i.TimeSource s.registry.LogStorage sg).SetGuardWindow s.guardWindow)
        (NewContext ctx tree) logID i.BatchSize = (n, none)) :
    (ExecutePass w s ctx logID (some i)).outcome = Outcome.returned n none := by
  rw [ExecutePass_of_engine_ok w s ctx logID i tree h sg n hT hH hS hB]

/-- Witness for C1: log 1 of the sample world resolves and its engine reports
zero leaves, which `ExecutePass` returns as `(0, nil)`. -/
theorem ExecutePass_returns_engine_count_witness :
    (ExecutePass sampleWorld sampleManager (Context.root 0) 1 (some sampleInfo)).outcome
      = Outcome.returned 0 none :=
  ExecutePass_returns_engine_count sampleWorld sampleManager (Context.root 0) 1 sampleInfo
    ⟨1⟩ ⟨11⟩ ⟨21⟩ 0 (by decide) (by decide) (by decide) (by decide)

/-- C2: whenever `ExecutePass` returns a non-nil error its count is 0; in
particular, when the resolutions succeed and the engine returns a count `n`
together with an error, `ExecutePass` returns count 0 with the wrapped
error. -/
theorem ExecutePass_error_count_zero (w : World) (s : SequencerManager) (ctx : Context)
    (logID : Int) :
    (∀ (info : Option LogOperationInfo) (c : Int) (e : GoError),
      (ExecutePass w s ctx logID info).outcome = Outcome.returned c (some e) → c = 0) ∧
    (∀ (i : LogOperationInfo) (tree : Tree) (h : Hasher) (sg : Signer) (n : Int) (e : GoError),
      w.getTree ctx s.registry.AdminStorage logID { TreeType := TreeType.LOG } = (tree, none) →
      w.hasher tree = (h, none) →
      w.signer (NewContext ctx tree) s.registry.SignerFactory tree = (sg, none) →
      w.sequenceBatch
        ((NewSequencer h i.TimeSource s.registry.LogStorage sg).SetGuardWindow s.guardWindow)
        (NewContext ctx tree) logID i.BatchSize = (n, some e) →
      (ExecutePass w s ctx logID (some i)).outcome
        = Outcome.returned 0 (some (Errorf "failed to sequence batch for %v: %v" logID e))) := by
  constructor
  · intro info c e hret
    rcases resolution_cases w s ctx logID with
      ⟨t, e1, hT⟩ | ⟨tree, h, e1, hT, hH⟩ | ⟨tree, h, sg, e1, hT, hH, hS⟩ | ⟨tree, h, sg, hT, hH, hS⟩
    · rw [ExecutePass_of_getTree_err w s ctx logID info t e1 hT] at hret
      simp only [Outcome.returned.injEq] at hret
      exact hret.1.symm
    · rw [ExecutePass_of_hasher_err w s ctx logID info tree h e1 hT hH] at hret
      simp only [Outcome.returned.injEq] at hret
      exact hret.1.symm
    · rw [ExecutePass_of_signer_err w s ctx logID info tree h sg e1 hT hH hS] at hret
      simp only [Outcome.returned.injEq] at hret
      exact hret.1.symm
    · cases info with
      | none =>
        rw [ExecutePass_of_nil_info w s ctx logID tree h sg hT hH hS] at hret
        exact absurd hret (by simp)
      | some i =>
        rcases hB : w.sequenceBatch
          ((NewSequencer h i.TimeSource s.registry.LogStorage sg).SetGuardWindow s.guardWindow)
          (NewContext ctx tree) logID i.BatchSize with ⟨n, _ | e2⟩
        · rw [ExecutePass_of_engine_ok w s ctx logID i tree h sg n hT hH hS hB] at hret
          simp at hret
        · rw [ExecutePass_of_engine_err w s ctx logID i tree h sg n e2 hT hH hS hB] at hret
          simp only [Outcome.returned.injEq] at hret
          exact hret.1.symm
  · intro i tree h sg n e hT hH hS hB
    rw [ExecutePass_of_engine_err w s ctx logID i tree h sg n e hT hH hS hB]

/-- Witness for C2: for log 4 of the sample world the engine returns a count of
five together with a conflict, and `ExecutePass` returns count 0. -/
theorem ExecutePass_error_count_zero_witness :
    sampleWorld.sequenceBatch
        ((NewSequencer ⟨14⟩ sampleInfo.TimeSource sampleManager.registry.LogStorage
          ⟨24⟩).SetGuardWindow sampleManager.guardWindow)
        (NewContext (Context.root 0) ⟨4⟩) 4 sampleInfo.BatchSize
      = (5, some ⟨ErrKind.sequencingConflict, "commit conflict"⟩) ∧
    (ExecutePass sampleWorld sampleManager (Context.root 0) 4 (some sampleInfo)).outcome
      = Outcome.returned 0 (some (Errorf "failed to sequence batch for %v: %v" 4
          ⟨ErrKind.sequencingConflict, "commit conflict"⟩)) :=
  ⟨by decide,
    (ExecutePass_error_count_zero sampleWorld sampleManager (Context.root 0) 4).2 sampleInfo
      ⟨4⟩ ⟨14⟩ ⟨24⟩ 5 ⟨ErrKind.sequencingConflict, "commit conflict"⟩
      (by decide) (by decide) (by decide) (by decide)⟩

/-- C3: every run starts by resolving the tree for `logID` with expected type
LOG; when that resolution fails with `e`, `ExecutePass` returns count 0 with
the tree-resolution error (the one built from "error retrieving log"), and the
tree resolution is the only collaborator call of the run: no hasher
resolution, no signer resolution, no `SequenceBatch`. -/
theorem ExecutePass_tree_resolution_failure (w : World) (s : SequencerManager) (ctx : Context)
    (logID : Int) (info : Option LogOperationInfo) :
    (ExecutePass w s ctx logID info).calls.head?
      = some (Call.getTree ctx s.registry.AdminStorage logID { TreeType := TreeType.LOG }) ∧
    (∀ (t : Tree) (e : GoError),
      w.getTree ctx s.registry.AdminStorage logID { TreeType := TreeType.LOG } = (t, some e) →
      (ExecutePass w s ctx logID info).outcome
        = Outcome.returned 0 (some (Errorf "error retrieving log %v: %v" logID e)) ∧
      (ExecutePass w s ctx logID info).calls
        = [Call.getTree ctx s.registry.AdminStorage logID { TreeType := TreeType.LOG }] ∧
      (ExecutePass w s ctx logID info).invocations Call.isHasher = 0 ∧
      (ExecutePass w s ctx logID info).invocations Call.isSigner = 0 ∧
      (ExecutePass w s ctx logID info).invocations Call.isSequenceBatch = 0) := by
  constructor
  · rcases resolution_cases w s ctx logID with
      ⟨t, e1, hT⟩ | ⟨tree, h, e1, hT, hH⟩ | ⟨tree, h, sg, e1, hT, hH, hS⟩ | ⟨tree, h, sg, hT, hH, hS⟩
    · rw [ExecutePass_of_getTree_err w s ctx logID info t e1 hT]; rfl
    · rw [ExecutePass_of_hasher_err w s ctx logID info tree h e1 hT hH]; rfl
    · rw [ExecutePass_of_signer_err w s ctx logID info tree h sg e1 hT hH hS]; rfl
    · cases info with
      | none => rw [ExecutePass_of_nil_info w s ctx logID tree h sg hT hH hS]; rfl
      | some i =>
        rcases hB : w.sequenceBatch
          ((NewSequencer h i.TimeSource s.registry.LogStorage sg).SetGuardWindow s.guardWindow)
          (NewContext ctx tree) logID i.BatchSize with ⟨n, _ | e2⟩
        · rw [ExecutePass_of_engine_ok w s ctx logID i tree h sg n hT hH hS hB]; rfl
        · rw [ExecutePass_of_engine_err w s ctx logID i tree h sg n e2 hT hH hS hB]; rfl
  · intro t e hT
    rw [ExecutePass_of_getTree_err w s ctx logID info t e hT]
    exact ⟨rfl, rfl, rfl, rfl, rfl⟩

/-- Witness for C3: log 9 does not resolve in the sample world. -/
theorem ExecutePass_tree_resolution_failure_witness :
    (ExecutePass sampleWorld sampleManager (Context.root 0) 9 (some sampleInfo)).outcome
        = Outcome.returned 0 (some (Errorf "error retrieving log %v: %v" 9
            ⟨ErrKind.notFound, "tree not found"⟩)) ∧
      (ExecutePass sampleWorld sampleManager (Context.root 0) 9 (some sampleInfo)).calls
        = [Call.getTree (Context.root 0) sampleManager.registry.AdminStorage 9
            { TreeType := TreeType.LOG }] ∧
      (ExecutePass sampleWorld sampleManager (Context.root 0) 9
        (some sampleInfo)).invocations Call.isHasher = 0 ∧
      (ExecutePass sampleWorld sampleManager (Context.root 0) 9
        (some sampleInfo)).invocations Call.isSigner = 0 ∧
      (ExecutePass sampleWorld sampleManager (Context.root 0) 9
        (some sampleInfo)).invocations Call.isSequenceBatch = 0 :=
  (ExecutePass_tree_resolution_failure sampleWorld sampleManager (Context.root 0) 9
    (some sampleInfo)).2 ⟨0⟩ ⟨ErrKind.notFound, "tree not found"⟩ (by decide)

/-- C4: for a resolved tree, a failing hasher resolution makes `ExecutePass`
return count 0 with the hasher error (built from "error getting hasher for
log") after the calls tree, hasher only, so no signer is requested; a failing
signer resolution after a successful hasher resolution makes it return count 0
with the signer error (built from "error getting signer for log") after the
calls tree, hasher, signer only; in both cases `SequenceBatch` is not
invoked. -/
theorem ExecutePass_hasher_signer_failure (w : World) (s : SequencerManager) (ctx : Context)
    (logID : Int) (info : Option LogOperationInfo) (tree : Tree)
    (hT : w.getTree ctx s.registry.AdminStorage logID { TreeType := TreeType.LOG }
      = (tree, none)) :
    (∀ (h : Hasher) (e : GoError), w.hasher tree = (h, some e) →
      (ExecutePass w s ctx logID info).outcome
        = Outcome.returned 0 (some (Errorf "error getting hasher for log %v: %v" logID e)) ∧
      (ExecutePass w s ctx logID info).calls
        = [Call.getTree ctx s.registry.AdminStorage logID { TreeType := TreeType.LOG },
            Call.hasher tree] ∧
      (ExecutePass w s ctx logID info).invocations Call.isSigner = 0 ∧
      (ExecutePass w s ctx logID info).invocations Call.isSequenceBatch = 0) ∧
    (∀ (h : Hasher) (sg : Signer) (e : GoError), w.hasher tree = (h, none) →
      w.signer (NewContext ctx tree) s.registry.SignerFactory tree = (sg, some e) →
      (ExecutePass w s ctx logID info).outcome
        = Outcome.returned 0 (some (Errorf "error getting signer for log %v: %v" logID e)) ∧
      (ExecutePass w s ctx logID info).calls
        = [Call.getTree ctx s.registry.AdminStorage logID { TreeType := TreeType.LOG },
            Call.hasher tree,
            Call.signer (NewContext ctx tree) s.registry.SignerFactory tree] ∧
      (ExecutePass w s ctx logID info).invocations Call.isSequenceBatch = 0) := by
  constructor
  · intro h e hH
    rw [ExecutePass_of_hasher_err w s ctx logID info tree h e hT hH]
    exact ⟨rfl, rfl, rfl, rfl⟩
  · intro h sg e hH hS
    rw [ExecutePass_of_signer_err w s ctx logID info tree h sg e hT hH hS]
    exact ⟨rfl, rfl, rfl⟩

/-- Witness for C4: in the sample world log 2 has no hasher. -/
theorem ExecutePass_hasher_signer_failure_witness :
    (ExecutePass sampleWorld sampleManager (Context.root 0) 2 (some sampleInfo)).outcome
        = Outcome.returned 0 (some (Errorf "error getting hasher for log %v: %v" 2
            ⟨ErrKind.unsupportedAlgorithm, "unknown hash strategy"⟩)) ∧
      (ExecutePass sampleWorld sampleManager (Context.root 0) 2 (some sampleInfo)).calls
        = [Call.getTree (Context.root 0) sampleManager.registry.AdminStorage 2
            { TreeType := TreeType.LOG }, Call.hasher ⟨2⟩] ∧
      (ExecutePass sampleWorld sampleManager (Context.root 0) 2
        (some sampleInfo)).invocations Call.isSigner = 0 ∧
      (ExecutePass sampleWorld sampleManager (Context.root 0) 2
        (some sampleInfo)).invocations Call.isSequenceBatch = 0 :=
  (ExecutePass_hasher_signer_failure sampleWorld sampleManager (Context.root 0) 2
    (some sampleInfo) ⟨2⟩ (by decide)).1 ⟨0⟩
    ⟨ErrKind.unsupportedAlgorithm, "unknown hash strategy"⟩ (by decide)

/-- C5, as stated, fails: for log 4 of the sample world the engine's error has
kind `sequencingConflict`, and the error `ExecutePass` returns has kind
`errorString`, which is a different kind. -/
theorem ExecutePass_kind_not_preserved :
    (sampleWorld.sequenceBatch
        ((NewSequencer ⟨14⟩ sampleInfo.TimeSource sampleManager.registry.LogStorage
          ⟨24⟩).SetGuardWindow sampleManager.guardWindow)
        (NewContext (Context.root 0) ⟨4⟩) 4 sampleInfo.BatchSize).2
      = some ⟨ErrKind.sequencingConflict, "commit conflict"⟩ ∧
    (ExecutePass sampleWorld sampleManager (Context.root 0) 4 (some sampleInfo)).outcome
      = Outcome.returned 0
          (some ⟨ErrKind.errorString, "failed to sequence batch for 4: commit conflict"⟩) ∧
    ErrKind.errorString ≠ ErrKind.sequencingConflict := by
  decide

/-- C5, amended: at each of the four failure sites the error `ExecutePass`
returns is a new plain error: its kind is `errorString` whatever the kind of
the underlying error `e`, and its message is the context of the site with the
decimal `logID`, followed by the message of `e`.  The message of `e` is
carried, its kind is not; and no error `ExecutePass` returns has another
kind. -/
theorem ExecutePass_error_is_plain (w : World) (s : SequencerManager) (ctx : Context)
    (logID : Int) :
    (∀ (info : Option LogOperationInfo) (t : Tree) (e : GoError),
      w.getTree ctx s.registry.AdminStorage logID { TreeType := TreeType.LOG } = (t, some e) →
      (ExecutePass w s ctx logID info).outcome = Outcome.returned 0
        (some { kind := ErrKind.errorString,
                msg := "error retrieving log " ++ toString logID ++ ": " ++ e.msg })) ∧
    (∀ (info : Option LogOperationInfo) (tree : Tree) (h : Hasher) (e : GoError),
      w.getTree ctx s.registry.AdminStorage logID { TreeType := TreeType.LOG } = (tree, none) →
      w.hasher tree = (h, some e) →
      (ExecutePass w s ctx logID info).outcome = Outcome.returned 0
        (some { kind := ErrKind.errorString,
                msg := "error getting hasher for log " ++ toString logID ++ ": " ++ e.msg })) ∧
    (∀ (info : Option LogOperationInfo) (tree : Tree) (h : Hasher) (sg : Signer) (e : GoError),
      w.getTree ctx s.registry.AdminStorage logID { TreeType := TreeType.LOG } = (tree, none) →
      w.hasher tree = (h, none) →
      w.signer (NewContext ctx tree) s.registry.SignerFactory tree = (sg, some e) →
      (ExecutePass w s ctx logID info).outcome = Outcome.returned 0
        (some { kind := ErrKind.errorString,
                msg := "error getting signer for log " ++ toString logID ++ ": " ++ e.msg })) ∧
    (∀ (i : LogOperationInfo) (tree : Tree) (h : Hasher) (sg : Signer) (n : Int) (e : GoError),
      w.getTree ctx s.registry.AdminStorage logID { TreeType := TreeType.LOG } = (tree, none) →
      w.hasher tree = (h, none) →
      w.signer (NewContext ctx tree) s.registry.SignerFactory tree = (sg, none) →
      w.sequenceBatch
        ((NewSequencer h i.TimeSource s.registry.LogStorage sg).SetGuardWindow s.guardWindow)
        (NewContext ctx tree) logID i.BatchSize = (n, some e) →
      (ExecutePass w s ctx logID (some i)).outcome = Outcome.returned 0
        (some { kind := ErrKind.errorString,
                msg := "failed to sequence batch for " ++ toString logID ++ ": " ++ e.msg })) ∧
    (∀ (info : Option LogOperationInfo) (c : Int) (err : GoError),
      (ExecutePass w s ctx logID info).outcome = Outcome.returned c (some err) →
      err.kind = ErrKind.errorString) := by
  refine ⟨?_, ?_, ?_, ?_, ?_⟩
  · intro info t e hT
    rw [ExecutePass_of_getTree_err w s ctx logID info t e hT, Errorf_retrieving_eq]
  · intro info tree h e hT hH
    rw [ExecutePass_of_hasher_err w s ctx logID info tree h e hT hH, Errorf_hasher_eq]
  · intro info tree h sg e hT hH hS
    rw [ExecutePass_of_signer_err w s ctx logID info tree h sg e hT hH hS, Errorf_signer_eq]
  · intro i tree h sg n e hT hH hS hB
    rw [ExecutePass_of_engine_err w s ctx logID i tree h sg n e hT hH hS hB, Errorf_sequence_eq]
  · intro info c err hret
    rcases resolution_cases w s ctx logID with
      ⟨t, e1, hT⟩ | ⟨tree, h, e1, hT, hH⟩ | ⟨tree, h, sg, e1, hT, hH, hS⟩ | ⟨tree, h, sg, hT, hH, hS⟩
    · rw [ExecutePass_of_getTree_err w s ctx logID info t e1 hT] at hret
      simp only [Outcome.returned.injEq, Option.some.injEq] at hret
      rw [← hret.2]; rfl
    · rw [ExecutePass_of_hasher_err w s ctx logID info tree h e1 hT hH] at hret
      simp only [Outcome.returned.injEq, Option.some.injEq] at hret
      rw [← hret.2]; rfl
    · rw [ExecutePass_of_signer_err w s ctx logID info tree h sg e1 hT hH hS] at hret
      simp only [Outcome.returned.injEq, Option.some.injEq] at hret
      rw [← hret.2]; rfl
    · cases info with
      | none =>
        rw [ExecutePass_of_nil_info w s ctx logID tree h sg hT hH hS] at hret
        exact absurd hret (by simp)
      | some i =>
        rcases hB : w.sequenceBatch
          ((NewSequencer h i.TimeSource s.registry.LogStorage sg).SetGuardWindow s.guardWindow)
          (NewContext ctx tree) logID i.BatchSize with ⟨n, _ | e2⟩
        · rw [ExecutePass_of_engine_ok w s ctx logID i tree h sg n hT hH hS hB] at hret
          simp at hret
        · rw [ExecutePass_of_engine_err w s ctx logID i tree h sg n e2 hT hH hS hB] at hret
          simp only [Outcome.returned.injEq, Option.some.injEq] at hret
          rw [← hret.2]; rfl

/-- Witness for C5, amended: for log 4 of the sample world the engine fails
with a conflict, and the error returned is the plain error that carries the
conflict's message. -/
theorem ExecutePass_error_is_plain_witness :
    (ExecutePass sampleWorld sampleManager (Context.root 0) 4 (some sampleInfo)).outcome
      = Outcome.returned 0
        (some { kind := ErrKind.errorString,
                msg := "failed to sequence batch for " ++ toString (4 : Int) ++ ": "
                  ++ "commit conflict" }) :=
  (ExecutePass_error_is_plain sampleWorld sampleManager (Context.root 0) 4).2.2.2.1
    sampleInfo ⟨4⟩ ⟨14⟩ ⟨24⟩ 5 ⟨ErrKind.sequencingConflict, "commit conflict"⟩
    (by decide) (by decide) (by decide) (by decide)

/-- C6: the message of the error `ExecutePass` returns is exactly
"error retrieving log <logID>: <e>", "error getting hasher for log <logID>: <e>",
"error getting signer for log <logID>: <e>" or
"failed to sequence batch for <logID>: <e>", according to the step that failed
with `e`, where `<logID>` is the decimal rendering of `logID` and `<e>` the
message of `e`. -/
theorem ExecutePass_error_message (w : World) (s : SequencerManager) (ctx : Context)
    (logID : Int) :
    (∀ (info : Option LogOperationInfo) (t : Tree) (e : GoError),
      w.getTree ctx s.registry.AdminStorage logID { TreeType := TreeType.LOG } = (t, some e) →
      ∃ err, (ExecutePass w s ctx logID info).outcome = Outcome.returned 0 (some err) ∧
        err.msg = "error retrieving log " ++ toString logID ++ ": " ++ e.msg) ∧
    (∀ (info : Option LogOperationInfo) (tree : Tree) (h : Hasher) (e : GoError),
      w.getTree ctx s.registry.AdminStorage logID { TreeType := TreeType.LOG } = (tree, none) →
      w.hasher tree = (h, some e) →
      ∃ err, (ExecutePass w s ctx logID info).outcome = Outcome.returned 0 (some err) ∧
        err.msg = "error getting hasher for log " ++ toString logID ++ ": " ++ e.msg) ∧
    (∀ (info : Option LogOperationInfo) (tree : Tree) (h : Hasher) (sg : Signer) (e : GoError),
      w.getTree ctx s.registry.AdminStorage logID { TreeType := TreeType.LOG } = (tree, none) →
      w.hasher tree = (h, none) →
      w.signer (NewContext ctx tree) s.registry.SignerFactory tree = (sg, some e) →
      ∃ err, (ExecutePass w s ctx logID info).outcome = Outcome.returned 0 (some err) ∧
        err.msg = "error getting signer for log " ++ toString logID ++ ": " ++ e.msg) ∧
    (∀ (i : LogOperationInfo) (tree : Tree) (h : Hasher) (sg : Signer) (n : Int) (e : GoError),
      w.getTree ctx s.registry.AdminStorage logID { TreeType := TreeType.LOG } = (tree, none) →
      w.hasher tree = (h, none) →
      w.signer (NewContext ctx tree) s.registry.SignerFactory tree = (sg, none) →
      w.sequenceBatch
        ((NewSequencer h i.TimeSource s.registry.LogStorage sg).SetGuardWindow s.guardWindow)
        (NewContext ctx tree) logID i.BatchSize = (n, some e) →
      ∃ err, (ExecutePass w s ctx logID (some i)).outcome = Outcome.returned 0 (some err) ∧
        err.msg = "failed to sequence batch for " ++ toString logID ++ ": " ++ e.msg) := by
  refine ⟨?_, ?_, ?_, ?_⟩
  · intro info t e hT
    rw [ExecutePass_of_getTree_err w s ctx logID info t e hT]
    exact ⟨_, rfl, Errorf_retrieving_msg logID e⟩
  · intro info tree h e hT hH
    rw [ExecutePass_of_hasher_err w s ctx logID info tree h e hT hH]
    exact ⟨_, rfl, Errorf_hasher_msg logID e⟩
  · intro info tree h sg e hT hH hS
    rw [ExecutePass_of_signer_err w s ctx logID info tree h sg e hT hH hS]
    exact ⟨_, rfl, Errorf_signer_msg logID e⟩
  · intro i tree h sg n e hT hH hS hB
    rw [ExecutePass_of_engine_err w s ctx logID i tree h sg n e hT hH hS hB]
    exact ⟨_, rfl, Errorf_sequence_msg logID e⟩

/-- Witness for C6: the negative log identifier -9 does not resolve in the
sample world, and the message names it in decimal. -/
theorem ExecutePass_error_message_witness :
    ∃ err, (ExecutePass sampleWorld sampleManager (Context.root 0) (-9) none).outcome
        = Outcome.returned 0 (some err) ∧
      err.msg = "error retrieving log " ++ toString (-9 : Int) ++ ": " ++ "tree not found" :=
  (ExecutePass_error_message sampleWorld sampleManager (Context.root 0) (-9)).1 none ⟨0⟩
    ⟨ErrKind.notFound, "tree not found"⟩ (by decide)

/-- C7: with a non-nil `info` and successful resolutions, `ExecutePass` on
`NewSequencerManager r gw` makes exactly these calls, in order: the three
resolutions, `NewSequencer` on the resolved hasher, the time source of `info`,
the log storage of `r` and the resolved signer, `SetGuardWindow gw`, and
`SequenceBatch` on the engine so built (whose guard window is `gw`) with the
same `logID` and `info.BatchSize`. -/
theorem ExecutePass_builds_engine (w : World) (r : Registry) (gw : Int) (ctx : Context)
    (logID : Int) (i : LogOperationInfo) (tree : Tree) (h : Hasher) (sg : Signer)
    (hT : w.getTree ctx r.AdminStorage logID { TreeType := TreeType.LOG } = (tree, none))
    (hH : w.hasher tree = (h, none))
    (hS : w.signer (NewContext ctx tree) r.SignerFactory tree = (sg, none)) :
    (ExecutePass w (NewSequencerManager r gw) ctx logID (some i)).calls
      = [Call.getTree ctx r.AdminStorage logID { TreeType := TreeType.LOG },
          Call.hasher tree,
          Call.signer (NewContext ctx tree) r.SignerFactory tree,
          Call.newSequencer h i.TimeSource r.LogStorage sg,
          Call.setGuardWindow gw,
          Call.sequenceBatch
            { hasher := h, timeSource := i.TimeSource, logStorage := r.LogStorage, signer := sg,
              guardWindow := gw }
            (NewContext ctx tree) logID i.BatchSize] := by
  rcases hB : w.sequenceBatch
    ((NewSequencer h i.TimeSource (NewSequencerManager r gw).registry.LogStorage
      sg).SetGuardWindow (NewSequencerManager r gw).guardWindow)
    (NewContext ctx tree) logID i.BatchSize with ⟨n, _ | e⟩
  · rw [ExecutePass_of_engine_ok w (NewSequencerManager r gw) ctx logID i tree h sg n hT hH hS hB]
    rfl
  · rw [ExecutePass_of_engine_err w (NewSequencerManager r gw) ctx logID i tree h sg n e
      hT hH hS hB]
    rfl

/-- Witness for C7: log 5 of the sample world, guard window 10, batch size 50. -/
theorem ExecutePass_builds_engine_witness :
    (ExecutePass sampleWorld (NewSequencerManager sampleRegistry 10) (Context.root 0) 5
        (some sampleInfo)).calls
      = [Call.getTree (Context.root 0) sampleRegistry.AdminStorage 5
            { TreeType := TreeType.LOG },
          Call.hasher ⟨5⟩,
          Call.signer (NewContext (Context.root 0) ⟨5⟩) sampleRegistry.SignerFactory ⟨5⟩,
          Call.newSequencer ⟨15⟩ sampleInfo.TimeSource sampleRegistry.LogStorage ⟨25⟩,
          Call.setGuardWindow 10,
          Call.sequenceBatch
            { hasher := ⟨15⟩, timeSource := sampleInfo.TimeSource,
              logStorage := sampleRegistry.LogStorage, signer := ⟨25⟩, guardWindow := 10 }
            (NewContext (Context.root 0) ⟨5⟩) 5 sampleInfo.BatchSize] :=
  ExecutePass_builds_engine sampleWorld sampleRegistry 10 (Context.root 0) 5 sampleInfo
    ⟨5⟩ ⟨15⟩ ⟨25⟩ (by decide) (by decide) (by decide)

/-- C8, as stated, fails: for log 1 of the sample world all three resolutions
succeed, and with a nil `info` the run ends in a nil dereference with
`SequenceBatch` invoked zero times, not once. -/
theorem ExecutePass_engine_not_invoked_on_nil_info :
    resolutionsSucceed sampleWorld sampleManager (Context.root 0) 1 = true ∧
    (ExecutePass sampleWorld sampleManager (Context.root 0) 1 none).outcome
      = Outcome.nilDereference ∧
    (ExecutePass sampleWorld sampleManager (Context.root 0) 1 none).invocations
      Call.isSequenceBatch = 0 := by
  decide

/-- C8, amended: in every call of `ExecutePass`, tree resolution is invoked
exactly once, hasher resolution, signer resolution and `SequenceBatch` at most
once each, and `SequenceBatch` exactly once if and only if all three
resolutions succeed and `info` is non-nil. -/
theorem ExecutePass_no_retries (w : World) (s : SequencerManager) (ctx : Context)
    (logID : Int) (info : Option LogOperationInfo) :
    (ExecutePass w s ctx logID info).invocations Call.isGetTree = 1 ∧
    (ExecutePass w s ctx logID info).invocations Call.isHasher ≤ 1 ∧
    (ExecutePass w s ctx logID info).invocations Call.isSigner ≤ 1 ∧
    (ExecutePass w s ctx logID info).invocations Call.isSequenceBatch ≤ 1 ∧
    ((ExecutePass w s ctx logID info).invocations Call.isSequenceBatch = 1 ↔
      (resolutionsSucceed w s ctx logID = true ∧ info.isSome = true)) := by
  rcases resolution_cases w s ctx logID with
    ⟨t, e1, hT⟩ | ⟨tree, h, e1, hT, hH⟩ | ⟨tree, h, sg, e1, hT, hH, hS⟩ | ⟨tree, h, sg, hT, hH, hS⟩
  · rw [ExecutePass_of_getTree_err w s ctx logID info t e1 hT,
      resolutionsSucceed_of_getTree_err w s ctx logID t e1 hT]
    simp [Run.invocations, Call.isGetTree, Call.isHasher, Call.isSigner, Call.isSequenceBatch]
  · rw [ExecutePass_of_hasher_err w s ctx logID info tree h e1 hT hH,
      resolutionsSucceed_of_hasher_err w s ctx logID tree h e1 hT hH]
    simp [Run.invocations, Call.isGetTree, Call.isHasher, Call.isSigner, Call.isSequenceBatch]
  · rw [ExecutePass_of_signer_err w s ctx logID info tree h sg e1 hT hH hS,
      resolutionsSucceed_of_signer_err w s ctx logID tree h sg e1 hT hH hS]
    simp [Run.invocations, Call.isGetTree, Call.isHasher, Call.isSigner, Call.isSequenceBatch]
  · rw [resolutionsSucceed_of_all_ok w s ctx logID tree h sg hT hH hS]
    cases info with
    | none =>
      rw [ExecutePass_of_nil_info w s ctx logID tree h sg hT hH hS]
      simp [Run.invocations, Call.isGetTree, Call.isHasher, Call.isSigner, Call.isSequenceBatch]
    | some i =>
      rcases hB : w.sequenceBatch
        ((NewSequencer h i.TimeSource s.registry.LogStorage sg).SetGuardWindow s.guardWindow)
        (NewContext ctx tree) logID i.BatchSize with ⟨n, _ | e2⟩
      · rw [ExecutePass_of_engine_ok w s ctx logID i tree h sg n hT hH hS hB]
        simp [Run.invocations, Call.isGetTree, Call.isHasher, Call.isSigner,
          Call.isSequenceBatch]
      · rw [ExecutePass_of_engine_err w s ctx logID i tree h sg n e2 hT hH hS hB]
        simp [Run.invocations, Call.isGetTree, Call.isHasher, Call.isSigner,
          Call.isSequenceBatch]

/-- C9, as stated, fails, with the engine of the spec (which rejects a bound
≤ 0): for log 5 of the sample world, which resolves, and a batch size of zero,
`ExecutePass` does forward the bound 0 to `SequenceBatch`, the engine answers
with an InvalidArgumentError, and the error `ExecutePass` returns has kind
`errorString`, which is not `invalidArgument`. -/
theorem ExecutePass_zero_batch_plain_error :
    (ExecutePass (sampleWorld.withEngine (SequenceBatch sampleWorld.sequenceBatch "bad limit"))
        sampleManager (Context.root 0) 5 (some zeroBatchInfo)).calls.getLast?
      = some (Call.sequenceBatch
          { hasher := ⟨15⟩, timeSource := ⟨7⟩, logStorage := ⟨3⟩, signer := ⟨25⟩,
            guardWindow := 10 }
          (Context.withTree (Context.root 0) ⟨5⟩) 5 0) ∧
    (sampleWorld.withEngine (SequenceBatch sampleWorld.sequenceBatch "bad limit")).sequenceBatch
        { hasher := ⟨15⟩, timeSource := ⟨7⟩, logStorage := ⟨3⟩, signer := ⟨25⟩,
          guardWindow := 10 }
        (Context.withTree (Context.root 0) ⟨5⟩) 5 0
      = (0, some ⟨ErrKind.invalidArgument, "bad limit"⟩) ∧
    (ExecutePass (sampleWorld.withEngine (SequenceBatch sampleWorld.sequenceBatch "bad limit"))
        sampleManager (Context.root 0) 5 (some zeroBatchInfo)).outcome
      = Outcome.returned 0
          (some ⟨ErrKind.errorString, "failed to sequence batch for 5: bad limit"⟩) ∧
    ErrKind.errorString ≠ ErrKind.invalidArgument := by
  decide

/-- C9, amended: with the engine of the spec, for every `info` with
`info.BatchSize ≤ 0` whose pass is run (the three resolutions succeed),
`ExecutePass` checks nothing itself: its calls are the three resolutions,
`NewSequencer`, `SetGuardWindow` and `SequenceBatch` with `info.BatchSize`
unchanged as the bound; that call answers count 0 with an
InvalidArgumentError; and `ExecutePass` returns count 0 with a plain error, of
kind `errorString` and not `invalidArgument`, whose message is
"failed to sequence batch for <logID>: <message of the InvalidArgumentError>". -/
theorem ExecutePass_forwards_nonpositive_batch (w : World) (reason : String)
    (s : SequencerManager) (ctx : Context) (logID : Int) (i : LogOperationInfo) (tree : Tree)
    (h : Hasher) (sg : Signer)
    (hT : w.getTree ctx s.registry.AdminStorage logID { TreeType := TreeType.LOG } = (tree, none))
    (hH : w.hasher tree = (h, none))
    (hS : w.signer (NewContext ctx tree) s.registry.SignerFactory tree = (sg, none))
    (hN : i.BatchSize ≤ 0) :
    (ExecutePass (w.withEngine (SequenceBatch w.sequenceBatch reason)) s ctx logID
        (some i)).calls
      = [Call.getTree ctx s.registry.AdminStorage logID { TreeType := TreeType.LOG },
          Call.hasher tree,
          Call.signer (NewContext ctx tree) s.registry.SignerFactory tree,
          Call.newSequencer h i.TimeSource s.registry.LogStorage sg,
          Call.setGuardWindow s.guardWindow,
          Call.sequenceBatch
            { hasher := h, timeSource := i.TimeSource, logStorage := s.registry.LogStorage,
              signer := sg, guardWindow := s.guardWindow }
            (NewContext ctx tree) logID i.BatchSize] ∧
    (w.withEngine (SequenceBatch w.sequenceBatch reason)).sequenceBatch
        { hasher := h, timeSource := i.TimeSource, logStorage := s.registry.LogStorage,
          signer := sg, guardWindow := s.guardWindow }
        (NewContext ctx tree) logID i.BatchSize
      = (0, some { kind := ErrKind.invalidArgument, msg := reason }) ∧
    (ExecutePass (w.withEngine (SequenceBatch w.sequenceBatch reason)) s ctx logID
        (some i)).outcome
      = Outcome.returned 0
          (some { kind := ErrKind.errorString,
                  msg := "failed to sequence batch for " ++ toString logID ++ ": " ++ reason }) ∧
    ErrKind.errorString ≠ ErrKind.invalidArgument := by
  have hB : (w.withEngine (SequenceBatch w.sequenceBatch reason)).sequenceBatch
      ((NewSequencer h i.TimeSource s.registry.LogStorage sg).SetGuardWindow s.guardWindow)
      (NewContext ctx tree) logID i.BatchSize
        = (0, some { kind := ErrKind.invalidArgument, msg := reason }) := by
    simp only [World.withEngine, SequenceBatch, hN, if_true]
  have hrun := ExecutePass_of_engine_err (w.withEngine (SequenceBatch w.sequenceBatch reason))
    s ctx logID i tree h sg 0 { kind := ErrKind.invalidArgument, msg := reason } hT hH hS hB
  rw [hrun, Errorf_sequence_eq]
  exact ⟨rfl, hB, rfl, by decide⟩

/-- Witness for C9, amended: log 5 of the sample world with a batch size of
zero; the run forwards the bound and returns count 0 with the plain error. -/
theorem ExecutePass_forwards_nonpositive_batch_witness :
    zeroBatchInfo.BatchSize ≤ 0 ∧
    (ExecutePass (sampleWorld.withEngine (SequenceBatch sampleWorld.sequenceBatch "bad limit"))
        sampleManager (Context.root 0) 5 (some zeroBatchInfo)).outcome
      = Outcome.returned 0
          (some { kind := ErrKind.errorString,
                  msg := "failed to sequence batch for " ++ toString (5 : Int) ++ ": "
                    ++ "bad limit" }) :=
  ⟨by decide,
    (ExecutePass_forwards_nonpositive_batch sampleWorld "bad limit" sampleManager
      (Context.root 0) 5 zeroBatchInfo ⟨5⟩ ⟨15⟩ ⟨25⟩ (by decide) (by decide) (by decide)
      (by decide)).2.2.1⟩

/-- C10: `ExecutePass` reads `info` only after the three resolutions have
succeeded: with a non-nil `info` it always returns a pair; when some resolution
fails, the run is the same for every `info`, nil included, and returns count 0
with an error; with a nil `info` it ends in a nil dereference exactly when all
three resolutions succeed. -/
theorem ExecutePass_info_read_after_resolution (w : World) (s : SequencerManager)
    (ctx : Context) (logID : Int) :
    (∀ i : LogOperationInfo, ∃ c e,
      (ExecutePass w s ctx logID (some i)).outcome = Outcome.returned c e) ∧
    (resolutionsSucceed w s ctx logID = false →
      (∀ info : Option LogOperationInfo,
        ExecutePass w s ctx logID info = ExecutePass w s ctx logID none) ∧
      ∃ e, (ExecutePass w s ctx logID none).outcome = Outcome.returned 0 (some e)) ∧
    ((ExecutePass w s ctx logID none).outcome = Outcome.nilDereference ↔
      resolutionsSucceed w s ctx logID = true) := by
  rcases resolution_cases w s ctx logID with
    ⟨t, e1, hT⟩ | ⟨tree, h, e1, hT, hH⟩ | ⟨tree, h, sg, e1, hT, hH, hS⟩ | ⟨tree, h, sg, hT, hH, hS⟩
  · refine ⟨?_, ?_, ?_⟩
    · intro i
      rw [ExecutePass_of_getTree_err w s ctx logID (some i) t e1 hT]
      exact ⟨_, _, rfl⟩
    · intro _
      refine ⟨?_, ?_⟩
      · intro info
        rw [ExecutePass_of_getTree_err w s ctx logID info t e1 hT,
          ExecutePass_of_getTree_err w s ctx logID none t e1 hT]
      · rw [ExecutePass_of_getTree_err w s ctx logID none t e1 hT]
        exact ⟨_, rfl⟩
    · rw [ExecutePass_of_getTree_err w s ctx logID none t e1 hT,
        resolutionsSucceed_of_getTree_err w s ctx logID t e1 hT]
      simp
  · refine ⟨?_, ?_, ?_⟩
    · intro i
      rw [ExecutePass_of_hasher_err w s ctx logID (some i) tree h e1 hT hH]
      exact ⟨_, _, rfl⟩
    · intro _
      refine ⟨?_, ?_⟩
      · intro info
        rw [ExecutePass_of_hasher_err w s ctx logID info tree h e1 hT hH,
          ExecutePass_of_hasher_err w s ctx logID none tree h e1 hT hH]
      · rw [ExecutePass_of_hasher_err w s ctx logID none tree h e1 hT hH]
        exact ⟨_, rfl⟩
    · rw [ExecutePass_of_hasher_err w s ctx logID none tree h e1 hT hH,
        resolutionsSucceed_of_hasher_err w s ctx logID tree h e1 hT hH]
      simp
  · refine ⟨?_, ?_, ?_⟩
    · intro i
      rw [ExecutePass_of_signer_err w s ctx logID (some i) tree h sg e1 hT hH hS]
      exact ⟨_, _, rfl⟩
    · intro _
      refine ⟨?_, ?_⟩
      · intro info
        rw [ExecutePass_of_signer_err w s ctx logID info tree h sg e1 hT hH hS,
          ExecutePass_of_signer_err w s ctx logID none tree h sg e1 hT hH hS]
      · rw [ExecutePass_of_signer_err w s ctx logID none tree h sg e1 hT hH hS]
        exact ⟨_, rfl⟩
    · rw [ExecutePass_of_signer_err w s ctx logID none tree h sg e1 hT hH hS,
        resolutionsSucceed_of_signer_err w s ctx logID tree h sg e1 hT hH hS]
      simp
  · refine ⟨?_, ?_, ?_⟩
    · intro i
      rcases hB : w.sequenceBatch
        ((NewSequencer h i.TimeSource s.registry.LogStorage sg).SetGuardWindow s.guardWindow)
        (NewContext ctx tree) logID i.BatchSize with ⟨n, _ | e2⟩
      · rw [ExecutePass_of_engine_ok w s ctx logID i tree h sg n hT hH hS hB]
        exact ⟨_, _, rfl⟩
      · rw [ExecutePass_of_engine_err w s ctx logID i tree h sg n e2 hT hH hS hB]
        exact ⟨_, _, rfl⟩
    · intro hf
      rw [resolutionsSucceed_of_all_ok w s ctx logID tree h sg hT hH hS] at hf
      exact absurd hf (by simp)
    · rw [ExecutePass_of_nil_info w s ctx logID tree h sg hT hH hS,
        resolutionsSucceed_of_all_ok w s ctx logID tree h sg hT hH hS]
      simp

/-- Witness for C10: log 3 of the sample world has no signer, and the run is
the same with a nil `info`. -/
theorem ExecutePass_info_read_after_resolution_witness :
    (∀ info : Option LogOperationInfo,
      ExecutePass sampleWorld sampleManager (Context.root 0) 3 info
        = ExecutePass sampleWorld sampleManager (Context.root 0) 3 none) ∧
    ∃ e, (ExecutePass sampleWorld sampleManager (Context.root 0) 3 none).outcome
      = Outcome.returned 0 (some e) :=
  (ExecutePass_info_read_after_resolution sampleWorld sampleManager (Context.root 0) 3).2.1
    (by decide)

end Trillian
